import Mathlib

/-!
Verification of the drand-oracle updater against its specification.

The Go sources embedded here are `src/updater/cmd/main.go` and
`src/updater/internal/service/metrics.go` (the latter containing two
versions of the `Metrics` component, embedded below as `MetricsV1` and
`MetricsV2`).  Go strings are modelled as `List Char`, Go `int64` as `Int`,
byte slices as `List Nat` (each entry < 256), and `float64` gauge values as
`ℚ` (every value arising in the claims is exactly representable).
Fallible operations return `Option`/`Except`; `none` models a Go panic
where the comment says so.
-/

namespace DrandOracle

/-! ### Go standard-library helpers (encoding/hex, strings, strconv) -/

/-- One hexadecimal digit's value, `none` for a non-hex character.
Embeds the per-character behaviour of Go `encoding/hex` decoding. -/
def hexDigitVal (c : Char) : Option Nat :=
  if '0' ≤ c ∧ c ≤ '9' then some (c.toNat - '0'.toNat)
  else if 'a' ≤ c ∧ c ≤ 'f' then some (c.toNat - 'a'.toNat + 10)
  else if 'A' ≤ c ∧ c ≤ 'F' then some (c.toNat - 'A'.toNat + 10)
  else none

/-- Embeds Go `hex.DecodeString`: an even-length string of hex digits
decodes to a byte slice; anything else is an error (`none`). -/
def hexDecode : List Char → Option (List Nat)
  | [] => some []
  | [_] => none
  | hi :: lo :: rest => do
    let h ← hexDigitVal hi
    let l ← hexDigitVal lo
    let bs ← hexDecode rest
    pure ((16 * h + l) :: bs)

/-- The lower-case hex digit for a value `n < 16`
(Go `encoding/hex` uses the alphabet `0123456789abcdef`). -/
def hexDigitChar (n : Nat) : Char :=
  if n < 10 then Char.ofNat ('0'.toNat + n) else Char.ofNat ('a'.toNat + (n - 10))

/-- Embeds Go `hex.EncodeToString` on a byte slice. -/
def hexEncode (bs : List Nat) : List Char :=
  bs.flatMap (fun b => [hexDigitChar (b / 16), hexDigitChar (b % 16)])

/-- Embeds Go `strings.TrimPrefix(s, "0x")` as used in `main.go` lines 72
and 81: drop a leading `0x` if present, otherwise return `s` unchanged. -/
def trimPrefix0x : List Char → List Char
  | c0 :: c1 :: rest => if c0 = '0' ∧ c1 = 'x' then rest else c0 :: c1 :: rest
  | s => s

/-- Embeds decimal-number parsing of balance strings: the digits of a
nonnegative decimal integer accumulate into a natural number; any other
string fails.  This models Go `math/big` `Float.SetString` on the domain
that arises here — the chain gateway's balances are printed as nonnegative
decimal integers (wei), and the failing branch models `SetString`
rejecting a malformed string. -/
def parseDecNat (s : List Char) : Option Nat :=
  match s with
  | [] => none
  | _ =>
    s.foldl
      (fun acc c =>
        match acc with
        | none => none
        | some n => if '0' ≤ c ∧ c ≤ '9' then some (10 * n + (c.toNat - '0'.toNat)) else none)
      (some 0)

/-- Round a natural number to `p` significant bits, ties to even: the
rounding Go `math/big` applies when it stores a parsed value at the
`Float`'s precision, and that `Float.Float64` applies at 53 bits.  For the
magnitudes arising here (far below the float64 overflow threshold) the
result is again a natural number. -/
def roundPrecNat (p n : Nat) : Nat :=
  if n < 2 ^ p then n
  else
    let s := Nat.log2 n + 1 - p
    let q := n / 2 ^ s
    let r := n % 2 ^ s
    let q' :=
      if 2 * r < 2 ^ s then q
      else if 2 ^ s < 2 * r then q + 1
      else if q % 2 = 0 then q else q + 1
    q' * 2 ^ s

/-- The float64 value recorded for a balance string: `SetString` on a fresh
`big.Float` parses at precision 64, then `Float64` rounds to 53 bits.
`none` models the parse failing. -/
def goBigFloatFloat64 (s : List Char) : Option Nat :=
  (parseDecNat s).map (fun n => roundPrecNat 53 (roundPrecNat 64 n))

/-! ### The spec-modelled updater backlog (claim C2)

`service.NewUpdater` / `updater.Start` are called from `main.go` (lines
88–104) but the updater service implementation itself is not among the
sources; the backlog computation is modelled from the spec. -/

/-- Modelled from the spec: the updater implementation behind
`updater.Start` is missing from the sources.  Spec §4.1 Initializing:
`start = max(L+1, genesisRound)` where `L` is the current on-chain round;
CatchingUp then processes each round `r` from `start` to the beacon
network's current latest round `D`, strictly in increasing order.  The
resulting submission sequence is the list `[start, …, D]`. -/
def catchUpRounds (genesisRound latestOnChain beaconLatest : Nat) : List Nat :=
  let start := max (latestOnChain + 1) genesisRound
  List.range' start (beaconLatest + 1 - start)

/-! ### metrics.go: shared data model

The file `src/updater/internal/service/metrics.go` contains two versions
of the `Metrics` component; the first (without the updater-balance gauge)
is embedded as `MetricsV1`, the second as `MetricsV2`.  A `common.Address`
is represented by the string its `Hex()` method returns; `chain.Info` by
the projections the metrics code reads from it. -/

/-- The fields of `chain.Info` read by `NewMetrics`: each field holds the
string (or integer) the corresponding Go expression produces. -/
structure ChainInfo where
  hashString : String
  publicKeyString : String
  periodString : String
  scheme : String
  genesisTime : Int
  genesisSeed : List Nat

/-- A single write against a metric vector: setting a gauge to a float64
value (represented exactly in `ℚ`) or incrementing a counter. -/
inductive MetricOp where
  | setGauge (v : ℚ)
  | incCounter
  deriving DecidableEq

/-- One metric update: the metric's name, the label values passed to
`WithLabelValues` in order, and the operation applied. -/
structure MetricWrite where
  name : String
  labelValues : List String
  op : MetricOp
  deriving DecidableEq

/-- Label-name constants (identical in both versions of the file;
`labelUpdaterAddress` appears only in the second). -/
def labelChainHash : String := "chain_hash"

def labelChainID : String := "chain_id"

def labelOracleAddress : String := "oracle_address"

def labelUpdaterAddress : String := "updater_address"

def labelPublicKey : String := "public_key"

def labelID : String := "id"

def labelPeriod : String := "period"

def labelScheme : String := "scheme"

def labelGenesisTime : String := "genesis_time"

def labelGenesisSeed : String := "genesis_seed"

/-- A collector registration: the metric name and its label names, as
passed to `promauto.NewGaugeVec` / `promauto.NewCounterVec`. -/
structure CollectorReg where
  name : String
  labelNames : List String
  deriving DecidableEq

/-! ### metrics.go, first version (lines 1–124) -/

/-- The stored label values of the first `Metrics` version. -/
structure MetricsV1 where
  chainHash : String
  chainID : Int
  oracleAddress : String
  deriving DecidableEq

/-- Embeds the first `NewMetrics(chainID, oracleAddress, drandInfo)`:
the stored fields of the struct literal. -/
def NewMetricsV1 (chainID : Int) (oracleAddress : String) (info : ChainInfo) : MetricsV1 :=
  { chainHash := info.hashString
    chainID := chainID
    oracleAddress := oracleAddress }

/-- The collectors the first `NewMetrics` registers, in program order. -/
def newMetricsV1Regs : List CollectorReg :=
  [{ name := "drand_round_number_network", labelNames := [labelChainHash] },
   { name := "drand_round_number_oracle", labelNames := [labelChainID, labelOracleAddress] },
   { name := "drand_set_randomness_success_total",
     labelNames := [labelChainID, labelOracleAddress] },
   { name := "drand_set_randomness_failure_total",
     labelNames := [labelChainID, labelOracleAddress] },
   { name := "drand_network_info",
     labelNames := [labelChainHash, labelPublicKey, labelPeriod, labelScheme,
                    labelGenesisTime, labelGenesisSeed] }]

/-- The metric writes the first `NewMetrics` itself performs: the single
`drandInfo.WithLabelValues(...).Set(1)` call. -/
def newMetricsV1Writes (chainID : Int) (oracleAddress : String) (info : ChainInfo) :
    List MetricWrite :=
  [{ name := "drand_network_info"
     labelValues := [(NewMetricsV1 chainID oracleAddress info).chainHash,
                     info.publicKeyString, info.periodString, info.scheme,
                     toString info.genesisTime, (hexEncode info.genesisSeed).asString]
     op := .setGauge 1 }]

/-- Embeds `(*Metrics).SetDrandRound` of the first version. -/
def MetricsV1.setDrandRoundWrite (m : MetricsV1) (round : ℚ) : MetricWrite :=
  { name := "drand_round_number_network"
    labelValues := [m.chainHash]
    op := .setGauge round }

/-- Embeds `(*Metrics).SetOracleRound` of the first version. -/
def MetricsV1.setOracleRoundWrite (m : MetricsV1) (round : ℚ) : MetricWrite :=
  { name := "drand_round_number_oracle"
    labelValues := [toString m.chainID, m.oracleAddress]
    op := .setGauge round }

/-- Embeds `(*Metrics).IncSetRandomnessSuccess` of the first version. -/
def MetricsV1.incSetRandomnessSuccessWrite (m : MetricsV1) : MetricWrite :=
  { name := "drand_set_randomness_success_total"
    labelValues := [toString m.chainID, m.oracleAddress]
    op := .incCounter }

/-- Embeds `(*Metrics).IncSetRandomnessFailure` of the first version. -/
def MetricsV1.incSetRandomnessFailureWrite (m : MetricsV1) : MetricWrite :=
  { name := "drand_set_randomness_failure_total"
    labelValues := [toString m.chainID, m.oracleAddress]
    op := .incCounter }

/-! ### metrics.go, second version (lines 125–270) -/

/-- The stored label values of the second `Metrics` version. -/
structure MetricsV2 where
  chainHash : String
  chainID : Int
  oracleAddress : String
  updaterAddress : String
  deriving DecidableEq

/-- Embeds the second `NewMetrics(chainID, oracleAddress, updaterAddress,
drandInfo)`: the stored fields of the struct literal. -/
def NewMetricsV2 (chainID : Int) (oracleAddress updaterAddress : String)
    (info : ChainInfo) : MetricsV2 :=
  { chainHash := info.hashString
    chainID := chainID
    oracleAddress := oracleAddress
    updaterAddress := updaterAddress }

/-- The collectors the second `NewMetrics` registers, in program order
(the balance gauge is registered last, after the info write). -/
def newMetricsV2Regs : List CollectorReg :=
  [{ name := "drand_round_number_network", labelNames := [labelChainHash] },
   { name := "drand_round_number_oracle", labelNames := [labelChainID, labelOracleAddress] },
   { name := "drand_set_randomness_success_total",
     labelNames := [labelChainID, labelOracleAddress] },
   { name := "drand_set_randomness_failure_total",
     labelNames := [labelChainID, labelOracleAddress] },
   { name := "drand_network_info",
     labelNames := [labelChainHash, labelPublicKey, labelPeriod, labelScheme,
                    labelGenesisTime, labelGenesisSeed] },
   { name := "drand_updater_balance_wei",
     labelNames := [labelChainID, labelOracleAddress, labelUpdaterAddress] }]

/-- The metric writes the second `NewMetrics` itself performs: the single
`drandInfo.WithLabelValues(...).Set(1)` call. -/
def newMetricsV2Writes (chainID : Int) (oracleAddress updaterAddress : String)
    (info : ChainInfo) : List MetricWrite :=
  [{ name := "drand_network_info"
     labelValues := [(NewMetricsV2 chainID oracleAddress updaterAddress info).chainHash,
                     info.publicKeyString, info.periodString, info.scheme,
                     toString info.genesisTime, (hexEncode info.genesisSeed).asString]
     op := .setGauge 1 }]

/-- Embeds `(*Metrics).SetDrandRound` of the second version. -/
def MetricsV2.setDrandRoundWrite (m : MetricsV2) (round : ℚ) : MetricWrite :=
  { name := "drand_round_number_network"
    labelValues := [m.chainHash]
    op := .setGauge round }

/-- Embeds `(*Metrics).SetOracleRound` of the second version. -/
def MetricsV2.setOracleRoundWrite (m : MetricsV2) (round : ℚ) : MetricWrite :=
  { name := "drand_round_number_oracle"
    labelValues := [toString m.chainID, m.oracleAddress]
    op := .setGauge round }

/-- Embeds `(*Metrics).IncSetRandomnessSuccess` of the second version. -/
def MetricsV2.incSetRandomnessSuccessWrite (m : MetricsV2) : MetricWrite :=
  { name := "drand_set_randomness_success_total"
    labelValues := [toString m.chainID, m.oracleAddress]
    op := .incCounter }

/-- Embeds `(*Metrics).IncSetRandomnessFailure` of the second version. -/
def MetricsV2.incSetRandomnessFailureWrite (m : MetricsV2) : MetricWrite :=
  { name := "drand_set_randomness_failure_total"
    labelValues := [toString m.chainID, m.oracleAddress]
    op := .incCounter }

/-- Embeds `(*Metrics).SetUpdaterBalance(wei string)`.  The Go body is
`balance, _ := new(big.Float).SetString(wei); b, _ := balance.Float64()`
followed by `Set(b)` on the balance gauge.  When `SetString` fails it
returns a nil pointer (the boolean result is discarded), and the
`balance.Float64()` call dereferences nil: `none` models that panic. -/
def MetricsV2.setUpdaterBalanceWrite (m : MetricsV2) (wei : String) : Option MetricWrite :=
  (goBigFloatFloat64 wei.data).map (fun b =>
    { name := "drand_updater_balance_wei"
      labelValues := [toString m.chainID, m.oracleAddress, m.updaterAddress]
      op := .setGauge (b : ℚ) })

/-! ### The promauto global registry

`promauto.NewGaugeVec` / `promauto.NewCounterVec` register each collector
with `prometheus.DefaultRegisterer`, a package-level global, via
`MustRegister`, which panics if a collector with the same name is already
registered.  The registry is modelled as the list of registered names. -/

/-- Register a list of collector names with the global default registry in
order: each registration appends the name; `none` models the
`MustRegister` panic on a duplicate name. -/
def registerAll (reg : List String) : List String → Option (List String)
  | [] => some reg
  | n :: ns => if n ∈ reg then none else registerAll (reg ++ [n]) ns

/-- Embeds the second `NewMetrics` together with its effect on the global
default registry: all six collectors are registered globally in program
order; `none` models the promauto panic when one is already present. -/
def newMetricsV2Global (reg : List String) (chainID : Int)
    (oracleAddress updaterAddress : String) (info : ChainInfo) :
    Option (List String × MetricsV2) :=
  (registerAll reg (newMetricsV2Regs.map (·.name))).map
    (fun reg' => (reg', NewMetricsV2 chainID oracleAddress updaterAddress info))

/-! ### main.go: startup pipeline (lines 31–93)

Each `log.Fatal` call terminates the process before the errgroup at line
97 is created, so before the updater loop or either HTTP server starts.
External constructors (`envconfig.Process`, `client.New`,
`ethclient.Dial`, `binding.NewBinding`, `crypto.HexToECDSA`,
`service.NewUpdater`) are library calls whose success is recorded as a
field of `StartupEnv`; the chain-hash decode is `hex.DecodeString` and is
modelled concretely by `hexDecode`. -/

/-- The startup step whose failure triggered `log.Fatal`, in program
order of `main`. -/
inductive StartupError where
  | configEnv
  | chainHashDecode
  | drandClient
  | rpcDial
  | contractBinding
  | signerKey
  | senderKey
  | updaterInit
  deriving DecidableEq

/-- The outcomes of the external startup calls of `main`, plus the raw
`CHAIN_HASH` configuration string. -/
structure StartupEnv where
  envConfigOk : Bool
  chainHash : String
  drandClientOk : Bool
  rpcDialOk : Bool
  bindingOk : Bool
  signerKeyParses : Bool
  senderKeyParses : Bool
  updaterInitOk : Bool

/-- Outcome of `main` up to line 97: either a fatal exit during startup
(before the updater loop and the HTTP servers exist), or all services
started under the shared errgroup. -/
inductive MainOutcome where
  | fatalAtStartup (s : StartupError)
  | servicesStarted
  deriving DecidableEq

/-- Embeds the startup sequence of `main`: each `if err != nil {
log.Fatal... }` in program order. -/
def mainStartup (e : StartupEnv) : MainOutcome :=
  if e.envConfigOk = false then .fatalAtStartup .configEnv
  else if hexDecode e.chainHash.data = none then .fatalAtStartup .chainHashDecode
  else if e.drandClientOk = false then .fatalAtStartup .drandClient
  else if e.rpcDialOk = false then .fatalAtStartup .rpcDial
  else if e.bindingOk = false then .fatalAtStartup .contractBinding
  else if e.signerKeyParses = false then .fatalAtStartup .signerKey
  else if e.senderKeyParses = false then .fatalAtStartup .senderKey
  else if e.updaterInitOk = false then .fatalAtStartup .updaterInit
  else .servicesStarted

/-! ### main.go: health endpoint (lines 110–114) -/

/-- Embeds the health `ServeMux` dispatch and handler: the pattern
`/health` has no trailing slash, so it matches exactly the path
`/health`; the handler ignores the request (method included) and writes
status 200 with body `OK`.  Any other path falls through to the mux's
not-found handler (status 404). -/
def healthMuxRespond (_method path : String) : Nat × String :=
  if path = "/health" then (200, "OK") else (404, "404 page not found\n")

/-! ### main.go: errgroup wiring (lines 97–156)

`errgroup.WithContext` derives a context that is cancelled the first time
a function passed to `Go` returns a non-nil error; `Wait` returns the
first non-nil error from the started functions.  Each HTTP server has a
goroutine that calls `Shutdown` once the shared context's done channel
closes, and the updater receives the shared context directly. -/

/-- Embeds one server task body (lines 107–131 and 134–152): the result
of `ListenAndServe` is returned, except that `http.ErrServerClosed` (the
normal result after `Shutdown`) is filtered to nil. -/
def serverTaskResult {E : Type} (isServerClosed : E → Bool) : Option E → Option E
  | some err => if isServerClosed err then none else some err
  | none => none

/-- The terminal results of one run of the three errgroup tasks: the
updater task's return value and both servers' `ListenAndServe` results,
with the `err == http.ErrServerClosed` test as a predicate on the
abstract error type. -/
structure MainRun (E : Type) where
  updaterResult : Option E
  healthListenResult : Option E
  metricsListenResult : Option E
  isServerClosed : E → Bool

/-- The three task results as the errgroup sees them, in the order the
`Go` calls appear in `main`. -/
def MainRun.taskResults {E : Type} (r : MainRun E) : List (Option E) :=
  [r.updaterResult,
   serverTaskResult r.isServerClosed r.healthListenResult,
   serverTaskResult r.isServerClosed r.metricsListenResult]

/-- Whether the shared errgroup context gets cancelled by a task error:
`errgroup.WithContext` cancels it the first time any task returns a
non-nil error. -/
def MainRun.ctxCancelledByError {E : Type} (r : MainRun E) : Bool :=
  r.taskResults.any (·.isSome)

/-- Whether the health server's shutdown goroutine (lines 121–124) fires:
it waits on the shared context's done channel. -/
def MainRun.healthShutdownRequested {E : Type} (r : MainRun E) : Bool :=
  r.ctxCancelledByError

/-- Whether the metrics server's shutdown goroutine (lines 142–145)
fires: it waits on the shared context's done channel. -/
def MainRun.metricsShutdownRequested {E : Type} (r : MainRun E) : Bool :=
  r.ctxCancelledByError

/-- Whether the updater loop is asked to stop: `updater.Start(ctx)` runs
under the shared context. -/
def MainRun.updaterStopRequested {E : Type} (r : MainRun E) : Bool :=
  r.ctxCancelledByError

/-- Whether the process exits with a non-zero status at line 155:
`errGroup.Wait()` returns the first non-nil task error, and `main` calls
`log.Fatal` exactly when that error is non-nil. -/
def MainRun.exitsNonZero {E : Type} (r : MainRun E) : Bool :=
  r.taskResults.any (·.isSome)

/-! ## Helper lemmas -/

/-- `List.range'` with step 1 is strictly increasing. -/
theorem chain'_lt_range' (s n : Nat) : List.Chain' (· < ·) (List.range' s n) := by
  cases n with
  | zero => simp
  | succ m =>
    rw [List.range'_succ]
    exact List.chain_lt_range' s m (by decide)

/-- A successful pass of `registerAll` appends exactly the given names to
the global registry, so every registered name is in the result. -/
theorem registerAll_ok_spec (ns : List String) (reg reg' : List String)
    (h : registerAll reg ns = some reg') :
    reg' = reg ++ ns ∧ ∀ n ∈ ns, n ∈ reg' := by
  induction ns generalizing reg with
  | nil =>
    simp only [registerAll, Option.some.injEq] at h
    subst h
    simp
  | cons n ns ih =>
    simp only [registerAll] at h
    split at h
    · exact absurd h (by simp)
    · obtain ⟨h1, h2⟩ := ih (reg ++ [n]) h
      refine ⟨by simpa using h1, ?_⟩
      intro x hx
      rw [List.mem_cons] at hx
      rcases hx with rfl | hx'
      · rw [h1]; simp
      · exact h2 x hx'

/-- Evaluation of the balance-string pipeline at `10^18` wei: the parse
yields `10^18`, and both rounding stages are exact because `10^18` has a
41-bit odd part. -/
theorem goBigFloatFloat64_wei18 :
    goBigFloatFloat64 "1000000000000000000".data = some (10 ^ 18) := by
  have hparse : parseDecNat "1000000000000000000".data = some (10 ^ 18) := by decide
  have h64 : roundPrecNat 64 (10 ^ 18) = 10 ^ 18 := by
    unfold roundPrecNat
    rw [if_pos (by norm_num)]
  have h53 : roundPrecNat 53 (10 ^ 18) = 10 ^ 18 := by
    have hlog : Nat.log2 (10 ^ 18) = 59 := by
      rw [Nat.log2_eq_log_two]
      exact Nat.log_eq_of_pow_le_of_lt_pow (by norm_num) (by norm_num)
    unfold roundPrecNat
    rw [hlog]
    decide
  unfold goBigFloatFloat64
  rw [hparse, Option.map_some', h64, h53]

/-! ## Claims -/

/-- C1 counterexample: `SetUpdaterBalance("1000000000000000000")` sets the
gauge to `10^18`, the raw wei value, and `10^18 ≠ 1`, so the gauge is not
normalized to `1.0`.  (The metric itself is named
`drand_updater_balance_wei`.) -/
theorem balance_raw_wei_not_normalized_cex :
    (MetricsV2.mk "h" 1 "o" "u").setUpdaterBalanceWrite "1000000000000000000" =
      some { name := "drand_updater_balance_wei"
             labelValues := ["1", "o", "u"]
             op := .setGauge ((10 ^ 18 : Nat) : ℚ) } ∧
    ((10 ^ 18 : Nat) : ℚ) ≠ 1 := by
  constructor
  · unfold MetricsV2.setUpdaterBalanceWrite
    rw [goBigFloatFloat64_wei18]
    rfl
  · norm_num

/-- C1 (amended): a raw balance value of `"1000000000000000000"` passed to
`SetUpdaterBalance` is recorded in the `drand_updater_balance_wei` gauge
as `10^18` — the raw wei value, exactly representable in float64 — not as
a normalized `1.0`. -/
theorem setUpdaterBalance_records_raw_wei (m : MetricsV2) :
    m.setUpdaterBalanceWrite "1000000000000000000" =
      some { name := "drand_updater_balance_wei"
             labelValues := [toString m.chainID, m.oracleAddress, m.updaterAddress]
             op := .setGauge ((10 ^ 18 : Nat) : ℚ) } := by
  unfold MetricsV2.setUpdaterBalanceWrite
  rw [goBigFloatFloat64_wei18]
  rfl

/-- C3: evaluation of `SetUpdaterBalance` at a malformed, non-numeric
balance string.  `big.Float.SetString` fails and returns nil with the
boolean result discarded, so `balance.Float64()` dereferences a nil
pointer and the method panics instead of returning normally — modelled by
the `none` result. -/
theorem setUpdaterBalance_malformed_input_panics :
    (MetricsV2.mk "h" 1 "o" "u").setUpdaterBalanceWrite "not-a-number" = none := by decide

/-- C6: any request whose path is `/health` — in particular every GET
request — receives status 200 with the fixed body `OK` from the health
mux, whatever the method. -/
theorem health_endpoint_returns_200_ok (method : String) :
    healthMuxRespond method "/health" = (200, "OK") := rfl

/-- C7: the second `NewMetrics` performs exactly one write itself, setting
the `drand_network_info` gauge to the constant 1 with label values taken
from the fetched network info, and that gauge is registered with exactly
the six identifying label names chain hash, public key, period, scheme,
genesis time and genesis seed. -/
theorem network_info_gauge_set_once_to_one (chainID : Int) (oracle updater : String)
    (info : ChainInfo) :
    newMetricsV2Writes chainID oracle updater info =
      [{ name := "drand_network_info"
         labelValues := [info.hashString, info.publicKeyString, info.periodString,
                         info.scheme, toString info.genesisTime,
                         (hexEncode info.genesisSeed).asString]
         op := .setGauge 1 }] ∧
    { name := "drand_network_info"
      labelNames := [labelChainHash, labelPublicKey, labelPeriod, labelScheme,
                     labelGenesisTime, labelGenesisSeed] : CollectorReg } ∈ newMetricsV2Regs :=
  ⟨rfl, by decide⟩

/-- C9: the two `Metrics` versions in the file are behaviourally
equivalent on their shared interface — `SetDrandRound`, `SetOracleRound`,
`IncSetRandomnessSuccess`, `IncSetRandomnessFailure` and the
`drand_network_info` initialization write produce identical metric names,
label values and values — and the second version's registrations are
exactly the first version's plus the updater-balance gauge. -/
theorem metrics_versions_equivalent_shared_interface (chainID : Int)
    (oracle updater : String) (info : ChainInfo) (round : ℚ) :
    (NewMetricsV1 chainID oracle info).setDrandRoundWrite round =
      (NewMetricsV2 chainID oracle updater info).setDrandRoundWrite round ∧
    (NewMetricsV1 chainID oracle info).setOracleRoundWrite round =
      (NewMetricsV2 chainID oracle updater info).setOracleRoundWrite round ∧
    (NewMetricsV1 chainID oracle info).incSetRandomnessSuccessWrite =
      (NewMetricsV2 chainID oracle updater info).incSetRandomnessSuccessWrite ∧
    (NewMetricsV1 chainID oracle info).incSetRandomnessFailureWrite =
      (NewMetricsV2 chainID oracle updater info).incSetRandomnessFailureWrite ∧
    newMetricsV1Writes chainID oracle info =
      newMetricsV2Writes chainID oracle updater info ∧
    newMetricsV2Regs = newMetricsV1Regs ++
      [{ name := "drand_updater_balance_wei"
         labelNames := [labelChainID, labelOracleAddress, labelUpdaterAddress] }] :=
  ⟨rfl, rfl, rfl, rfl, rfl, by decide⟩

/-- C2: for genesis round `G`, on-chain latest `L` and beacon latest `D`
with `G ≤ L < D`, the catch-up submission sequence is exactly the rounds
`L+1` through `D`, in strictly increasing order, with no gaps and no
repeats. -/
theorem updater_submits_exact_backlog (G L D : Nat) (hGL : G ≤ L) (hLD : L < D) :
    catchUpRounds G L D = List.range' (L + 1) (D - L) ∧
    (∀ r, r ∈ catchUpRounds G L D ↔ L + 1 ≤ r ∧ r ≤ D) ∧
    List.Chain' (· < ·) (catchUpRounds G L D) ∧
    (catchUpRounds G L D).Nodup := by
  have heq : catchUpRounds G L D = List.range' (L + 1) (D - L) := by
    show List.range' (max (L + 1) G) (D + 1 - max (L + 1) G) = _
    rw [max_eq_left (by omega)]
    congr 1
    omega
  refine ⟨heq, ?_, ?_, ?_⟩
  · intro r
    rw [heq, List.mem_range'_1]
    omega
  · rw [heq]
    exact chain'_lt_range' _ _
  · rw [heq]
    exact List.nodup_range' _ _

/-- C2 witness: the spec's own scenario — genesis 100, on-chain latest
100, beacon latest 103 — yields the submissions 101, 102, 103. -/
theorem updater_submits_exact_backlog_witness :
    catchUpRounds 100 100 103 = [101, 102, 103] := by
  have h := (updater_submits_exact_backlog 100 100 103 (by decide) (by decide)).1
  rw [h]
  decide

/-- C4: failures of any of the startup steps — environment-configuration
processing, chain-hash hex decoding, the signer or sender key parse, and
the external client/binding/updater constructions — terminate `main`
fatally before the updater loop or either HTTP server is started, and
`main` reaches the service-starting errgroup exactly when every startup
step succeeds. -/
theorem startup_fatal_error_classes (e : StartupEnv) :
    ((e.envConfigOk = false ∨ hexDecode e.chainHash.data = none ∨
        e.signerKeyParses = false ∨ e.senderKeyParses = false) →
      ∃ s, mainStartup e = .fatalAtStartup s) ∧
    (mainStartup e = .servicesStarted ↔
      (e.envConfigOk = true ∧ (hexDecode e.chainHash.data).isSome = true ∧
       e.drandClientOk = true ∧ e.rpcDialOk = true ∧ e.bindingOk = true ∧
       e.signerKeyParses = true ∧ e.senderKeyParses = true ∧
       e.updaterInitOk = true)) := by
  have hiff : mainStartup e = .servicesStarted ↔
      (e.envConfigOk = true ∧ (hexDecode e.chainHash.data).isSome = true ∧
       e.drandClientOk = true ∧ e.rpcDialOk = true ∧ e.bindingOk = true ∧
       e.signerKeyParses = true ∧ e.senderKeyParses = true ∧
       e.updaterInitOk = true) := by
    unfold mainStartup
    repeat' split
    all_goals simp_all [Option.isSome_iff_ne_none]
  refine ⟨?_, hiff⟩
  intro h
  cases hm : mainStartup e with
  | fatalAtStartup s => exact ⟨s, rfl⟩
  | servicesStarted =>
    obtain ⟨h1, h2, h3, h4, h5, h6, h7, h8⟩ := hiff.1 hm
    rcases h with h | h | h | h <;> simp_all

/-- C4 witness: a non-hex chain hash (`"zz"`) is fatal at startup even
though every other step succeeds. -/
theorem startup_fatal_error_classes_witness :
    ∃ s, mainStartup
      { envConfigOk := true, chainHash := "zz", drandClientOk := true,
        rpcDialOk := true, bindingOk := true, signerKeyParses := true,
        senderKeyParses := true, updaterInitOk := true } = .fatalAtStartup s :=
  (startup_fatal_error_classes _).1 (Or.inr (Or.inl (by decide)))

/-- C5: if any of the three errgroup tasks — the updater loop or either
HTTP server task — terminates with a non-nil error, the shared context is
cancelled, so the other two are asked to shut down, and `main` exits with
a non-zero status via `log.Fatal`. -/
theorem task_error_cancels_scope_and_exits_nonzero {E : Type} (r : MainRun E) (err : E)
    (h : r.updaterResult = some err ∨
         serverTaskResult r.isServerClosed r.healthListenResult = some err ∨
         serverTaskResult r.isServerClosed r.metricsListenResult = some err) :
    r.ctxCancelledByError = true ∧
    r.updaterStopRequested = true ∧
    r.healthShutdownRequested = true ∧
    r.metricsShutdownRequested = true ∧
    r.exitsNonZero = true := by
  have hc : r.taskResults.any (·.isSome) = true := by
    rcases h with h | h | h <;> simp [MainRun.taskResults, h]
  exact ⟨hc, hc, hc, hc, hc⟩

/-- C5 witness: an updater-task error in a concrete run cancels the scope,
asks both servers to shut down, and exits non-zero. -/
theorem task_error_cancels_scope_and_exits_nonzero_witness :
    (MainRun.mk (some ()) none none (fun _ => false) : MainRun Unit).ctxCancelledByError
        = true ∧
    (MainRun.mk (some ()) none none (fun _ => false) : MainRun Unit).updaterStopRequested
        = true ∧
    (MainRun.mk (some ()) none none (fun _ => false) : MainRun Unit).healthShutdownRequested
        = true ∧
    (MainRun.mk (some ()) none none (fun _ => false) : MainRun Unit).metricsShutdownRequested
        = true ∧
    (MainRun.mk (some ()) none none (fun _ => false) : MainRun Unit).exitsNonZero = true :=
  task_error_cancels_scope_and_exits_nonzero
    (MainRun.mk (some ()) none none (fun _ => false)) () (Or.inl rfl)

/-- C8 counterexample: constructing a `Metrics` instance from an empty
global default registry appends all six collector names to it (mutating
process-global state), and constructing a second instance against the
resulting registry panics in `promauto` — it is not well-defined. -/
theorem newMetrics_mutates_global_registry_cex :
    newMetricsV2Global [] 1 "o" "u" ⟨"h", "pk", "30s", "bls", 0, []⟩ =
      some (["drand_round_number_network", "drand_round_number_oracle",
             "drand_set_randomness_success_total", "drand_set_randomness_failure_total",
             "drand_network_info", "drand_updater_balance_wei"],
            { chainHash := "h", chainID := 1, oracleAddress := "o",
              updaterAddress := "u" }) ∧
    (["drand_round_number_network", "drand_round_number_oracle",
      "drand_set_randomness_success_total", "drand_set_randomness_failure_total",
      "drand_network_info", "drand_updater_balance_wei"] : List String) ≠ [] ∧
    newMetricsV2Global
      ["drand_round_number_network", "drand_round_number_oracle",
       "drand_set_randomness_success_total", "drand_set_randomness_failure_total",
       "drand_network_info", "drand_updater_balance_wei"]
      1 "o" "u" ⟨"h", "pk", "30s", "bls", 0, []⟩ = none := by decide

/-- C8 (amended): the `Metrics` instance is constructed once at startup
and passed by reference, but `promauto` registers its collectors with the
process-global default registry: a successful construction appends
exactly its six collector names to the global registry, and repeating the
construction against the mutated registry panics. -/
theorem newMetrics_global_registration (reg reg' : List String) (chainID : Int)
    (oracle updater : String) (info : ChainInfo) (m : MetricsV2)
    (h : newMetricsV2Global reg chainID oracle updater info = some (reg', m)) :
    reg' = reg ++ newMetricsV2Regs.map (·.name) ∧
    newMetricsV2Global reg' chainID oracle updater info = none := by
  unfold newMetricsV2Global at h
  rw [Option.map_eq_some'] at h
  obtain ⟨r2, hreg, hpair⟩ := h
  have hr2 : r2 = reg' := congrArg Prod.fst hpair
  rw [← hr2]
  obtain ⟨h1, h2⟩ := registerAll_ok_spec _ _ _ hreg
  refine ⟨h1, ?_⟩
  have hmem : "drand_round_number_network" ∈ r2 :=
    h2 "drand_round_number_network" (by decide)
  unfold newMetricsV2Global
  have hnone : registerAll r2 (newMetricsV2Regs.map (·.name)) = none := by
    simp only [newMetricsV2Regs, List.map, registerAll]
    rw [if_pos hmem]
  rw [hnone]
  rfl

/-- C8 amended-claim witness: the concrete double construction from an
empty registry. -/
theorem newMetrics_global_registration_witness :
    (["drand_round_number_network", "drand_round_number_oracle",
      "drand_set_randomness_success_total", "drand_set_randomness_failure_total",
      "drand_network_info", "drand_updater_balance_wei"] : List String) =
      [] ++ newMetricsV2Regs.map (·.name) ∧
    newMetricsV2Global
      ["drand_round_number_network", "drand_round_number_oracle",
       "drand_set_randomness_success_total", "drand_set_randomness_failure_total",
       "drand_network_info", "drand_updater_balance_wei"]
      2 "o2" "u2" ⟨"h2", "pk2", "25s", "bls", 7, [1]⟩ = none :=
  newMetrics_global_registration []
    ["drand_round_number_network", "drand_round_number_oracle",
     "drand_set_randomness_success_total", "drand_set_randomness_failure_total",
     "drand_network_info", "drand_updater_balance_wei"]
    2 "o2" "u2" ⟨"h2", "pk2", "25s", "bls", 7, [1]⟩
    { chainHash := "h2", chainID := 2, oracleAddress := "o2", updaterAddress := "u2" }
    (by decide)

/-- C10: the signer and sender private-key strings are parsed after
`strings.TrimPrefix(·, "0x")`, so for every hex-digit string `k` the key
obtained from `"0x" + k` is exactly the key obtained from `k`, whatever
the (deterministic) ECDSA parse does. -/
theorem private_key_0x_insensitive {K : Type} (hexToECDSA : List Char → K)
    (k : List Char) (hk : ∀ c ∈ k, (hexDigitVal c).isSome = true) :
    hexToECDSA (trimPrefix0x ('0' :: 'x' :: k)) = hexToECDSA (trimPrefix0x k) := by
  have h1 : trimPrefix0x ('0' :: 'x' :: k) = k := by
    simp [trimPrefix0x]
  have h2 : trimPrefix0x k = k := by
    cases k with
    | nil => rfl
    | cons c0 t =>
      cases t with
      | nil => rfl
      | cons c1 rest =>
        have hne : ¬(c0 = '0' ∧ c1 = 'x') := by
          rintro ⟨rfl, rfl⟩
          exact absurd (hk 'x' (by simp)) (by decide)
        simp [trimPrefix0x, hne]
  rw [h1, h2]

/-- C10 witness: the concrete key digits `ab12` parse identically with and
without the `0x` prefix. -/
theorem private_key_0x_insensitive_witness :
    (∀ c ∈ ['a', 'b', '1', '2'], (hexDigitVal c).isSome = true) ∧
    id (trimPrefix0x ('0' :: 'x' :: ['a', 'b', '1', '2'])) =
      id (trimPrefix0x ['a', 'b', '1', '2']) :=
  ⟨by decide, private_key_0x_insensitive id ['a', 'b', '1', '2'] (by decide)⟩

end DrandOracle
